import Mathlib

/-!
Verification development for the rotary-tool cycle-time calculator
(`src/lambda_function.py`).  Python numeric values are modeled as exact
rationals; Python `round` is modeled with round-half-to-even; fallible
steps return `Except` carrying the numeric status codes of the source;
an uncaught Python exception (such as `ZeroDivisionError`) is modeled
as `Option.none` / a dedicated `crash` constructor.  String functions
(`lower`, `upper`, `replace`, `split`, the substring test `in`) are
modeled character-by-character, matching Python semantics on the ASCII
descriptions this program processes.
-/

namespace CycleCalc

/-- Round-half-to-even on rationals, modeling the tie behavior of Python's
builtin `round`. -/
def rhe (q : ℚ) : ℤ :=
  if q - ⌊q⌋ < 1/2 then ⌊q⌋
  else if 1/2 < q - (⌊q⌋ : ℚ) then ⌊q⌋ + 1
  else if ⌊q⌋ % 2 = 0 then ⌊q⌋ else ⌊q⌋ + 1

/-- Python `round(q, n)` on exact rationals. -/
def pyRound (q : ℚ) (n : ℕ) : ℚ := (rhe (q * 10 ^ n) : ℚ) / 10 ^ n

/-- Python substring test `sub in s` over character lists. -/
def pyIn (sub : List Char) : List Char → Bool
  | [] => sub.isEmpty
  | x :: xs => sub.isPrefixOf (x :: xs) || pyIn sub xs

/-- Python substring test `sub in s` on strings. -/
def pyInStr (sub s : String) : Bool := pyIn sub.data s.data

/-- Python `str.lower` on one ASCII character. -/
def pyLowerChar (c : Char) : Char :=
  if 'A' ≤ c ∧ c ≤ 'Z' then Char.ofNat (c.toNat + 32) else c

/-- Python `str.lower` (ASCII). -/
def pyLower (s : String) : String := ⟨s.data.map pyLowerChar⟩

/-- Python `str.upper` on one ASCII character. -/
def pyUpperChar (c : Char) : Char :=
  if 'a' ≤ c ∧ c ≤ 'z' then Char.ofNat (c.toNat - 32) else c

/-- Python `str.upper` (ASCII). -/
def pyUpper (s : String) : String := ⟨s.data.map pyUpperChar⟩

/-- The `ToolInfo` dataclass of `lambda_function.py` (numeric fields as
rationals, in source declaration order; `material_dimension` is the
class-level string attribute written by the kwargs mapping). -/
structure ToolInfo where
  cut_diameter : ℚ := 0
  length_of_cut : ℚ := 0
  shank_diameter : ℚ := 0
  overall_length : ℚ := 0
  flute_length : ℚ := 0
  tip_diameter : ℚ := 0
  tip_length : ℚ := 0
  pilot_length : ℚ := 0
  corner_radius : ℚ := 0
  neck_diameter : ℚ := 0
  neck_length : ℚ := 0
  tapered_neck_diameter : ℚ := 0
  tapered_neck_angle : ℚ := 0
  main_angle : ℚ := 0
  material : String := ""
  material_diameter : ℚ := 0
  material_oal : ℚ := 0
  material_dimension : String := ""
  full_description : String := ""
  tool_description : String := ""
  bur_description : String := ""
  formatted_description : String := ""
  part_number : String := ""
  tool_family : String := ""
  reference_family : String := ""
  tool_type : String := ""
  flute_count : String := ""
  fluting_cycle_time : ℚ := 0
  prep_cycle_time : ℚ := 0
  prep_type : String := ""
  deriving Repr, DecidableEq

/-- The kwargs scan of `lambda_handler` (lines 209-216): the loop body ends
in an unconditional `break`, so only the first mapping entry is examined. -/
def scanPartNum (kwargs : List (String × String)) : String :=
  match kwargs with
  | [] => ""
  | (k, v) :: _ => if pyLower k = "part_num" then v else ""

/-- The success-response dictionary built by `lambda_handler`. -/
structure SuccessResponse where
  statusCode : ℕ
  partNumber : String
  diameter : ℚ
  loc : ℚ
  shankDiameter : ℚ
  oal : ℚ
  fluteCount : String
  description : String
  family : String
  prepType : String
  cycleTime : ℚ
  prepTime : ℚ
  totalCycleTime : ℚ
  deriving Repr, DecidableEq

/-- `lambda_handler`'s `data` dictionary (lines 281-298). -/
def buildSuccessData (part_num : String) (tool : ToolInfo) : SuccessResponse :=
  { statusCode := 900
    partNumber := part_num
    diameter := tool.cut_diameter
    loc := tool.length_of_cut
    shankDiameter := tool.shank_diameter
    oal := tool.overall_length
    fluteCount := tool.flute_count
    description := tool.full_description
    family := tool.tool_family
    prepType := tool.prep_type
    cycleTime := tool.fluting_cycle_time
    prepTime := tool.prep_cycle_time
    totalCycleTime := pyRound (tool.fluting_cycle_time + tool.prep_cycle_time) 3 }

/-- Outcome of a request: either an error status code or the success
response. -/
inductive HandlerResult where
  | success : SuccessResponse → HandlerResult
  | failure : ℕ → HandlerResult
  deriving Repr, DecidableEq

/-- Tail of `lambda_handler`: on a non-900 result from `get_tool_detail` the
status code is propagated; on 900 the success data is assembled with the
part number taken from the initial kwargs scan. -/
def lambdaHandlerTail (kwargs : List (String × String))
    (r : Except ℕ ToolInfo) : HandlerResult :=
  match r with
  | .error c => .failure c
  | .ok tool => .success (buildSuccessData (scanPartNum kwargs) tool)

/-- C1: for every request that completes successfully (status 900), the
`TotalCycleTime` field of the response equals `round(CycleTime + PrepTime, 3)`
where `CycleTime` and `PrepTime` are the tool's computed fluting and prep
cycle times. -/
theorem total_cycle_time_is_rounded_sum
    (kwargs : List (String × String)) (r : Except ℕ ToolInfo)
    (resp : SuccessResponse)
    (h : lambdaHandlerTail kwargs r = .success resp) :
    resp.statusCode = 900 ∧
    resp.cycleTime = (r.toOption.map ToolInfo.fluting_cycle_time).getD 0 ∧
    resp.prepTime = (r.toOption.map ToolInfo.prep_cycle_time).getD 0 ∧
    resp.totalCycleTime = pyRound (resp.cycleTime + resp.prepTime) 3 := by
  cases r with
  | error c => simp [lambdaHandlerTail] at h
  | ok tool =>
    simp only [lambdaHandlerTail] at h
    cases h
    simp [buildSuccessData, Except.toOption]

/-- Witness for C1 at a concrete successful request. -/
theorem total_cycle_time_is_rounded_sum_witness :
    (buildSuccessData "101-101"
      { fluting_cycle_time := 2489/1000, prep_cycle_time := 6965/1000 }).totalCycleTime
      = pyRound ((buildSuccessData "101-101"
          { fluting_cycle_time := 2489/1000, prep_cycle_time := 6965/1000 }).cycleTime
        + (buildSuccessData "101-101"
          { fluting_cycle_time := 2489/1000, prep_cycle_time := 6965/1000 }).prepTime) 3 := by
  have h : lambdaHandlerTail [("PART_NUM", "101-101")]
      (.ok { fluting_cycle_time := 2489/1000, prep_cycle_time := 6965/1000 })
      = .success (buildSuccessData "101-101"
          { fluting_cycle_time := 2489/1000, prep_cycle_time := 6965/1000 }) := by
    have hs : scanPartNum [("PART_NUM", "101-101")] = "101-101" := by decide
    simp [lambdaHandlerTail, hs]
  exact (total_cycle_time_is_rounded_sum _ _ _ h).2.2.2

/-- Value of a digit string (underscores already removed). -/
def digitsVal (l : List Char) : ℤ :=
  l.foldl (fun a c => 10 * a + ((c.toNat : ℤ) - 48)) 0

/-- No two consecutive underscores. -/
def noDoubleUnderscore : List Char → Bool
  | [] => true
  | [_] => true
  | a :: b :: t =>
    if a = '_' ∧ b = '_' then false else noDoubleUnderscore (b :: t)

/-- A valid Python integer-literal digit part: non-empty, digits with
single underscores strictly between digits. -/
def digitsOK (l : List Char) : Bool :=
  !l.isEmpty && l.all (fun c => c.isDigit || c = '_')
    && (match l.head? with | some c => c.isDigit | none => false)
    && (match l.getLast? with | some c => c.isDigit | none => false)
    && noDoubleUnderscore l

/-- Python `int(s)` on a string: optional surrounding whitespace, optional
sign, then a digit group; `none` models a raised `ValueError`. -/
def pyInt? (s : String) : Option ℤ :=
  let t := ((s.data.dropWhile Char.isWhitespace).reverse.dropWhile
    Char.isWhitespace).reverse
  match t with
  | '+' :: r => if digitsOK r then some (digitsVal (r.filter (· ≠ '_'))) else none
  | '-' :: r => if digitsOK r then some (-(digitsVal (r.filter (· ≠ '_')))) else none
  | r => if digitsOK r then some (digitsVal (r.filter (· ≠ '_'))) else none

/-- Python `s.split(sep)` for a one-character separator (keeps empty
segments). -/
def pySplitOn (c : Char) : List Char → List (List Char)
  | [] => [[]]
  | x :: xs =>
    if x = c then [] :: pySplitOn c xs
    else
      match pySplitOn c xs with
      | h :: t => (x :: h) :: t
      | [] => [[x]]

/-- The tuple unpacking `fl_cnt1, fl_cnt2 = map(int, fl_cnt.split("/"))`:
exactly two segments, both parsing as integers; any failure raises, which
the caller turns into status 202. -/
def flutePartsUnpack : List (Option ℤ) → Except ℕ (ℤ × ℤ)
  | [some a, some b] => .ok (a, b)
  | _ => .error 202

/-- Flute-count parsing of `calc_fluting_time` (lines 1559-1575): a
`"N/M"` form yields both counts; a plain integer `N` yields `(N, 1)`; an
empty value is status 307; a conversion failure is 202 when a slash is
present and 203 otherwise. -/
def parseFluteCount (s : String) : Except ℕ (ℤ × ℤ) :=
  if s.data.contains '/' then
    flutePartsUnpack ((pySplitOn '/' s.data).map (fun p => pyInt? (String.mk p)))
  else if s ≠ "" then
    match pyInt? s with
    | some n => .ok (n, 1)
    | none => .error 203
  else .error 307

theorem flutePartsUnpack_of_none {L : List (Option ℤ)} (h : none ∈ L) :
    flutePartsUnpack L = .error 202 := by
  match L with
  | [] => simp at h
  | [a] => cases a <;> rfl
  | [a, b] =>
    cases a with
    | none => cases b <;> rfl
    | some x =>
      cases b with
      | none => rfl
      | some y => simp at h
  | a :: b :: c :: t => cases a <;> cases b <;> rfl

/-- C2: flute-count parsing behavior: `"8/5"` yields `(8, 5)`; `"8"`
yields `(8, 1)`; the empty string fails with 307; `"a/b"` fails with 202;
generally, a slashed value any of whose segments is not an integer fails
with 202, and a non-empty slashless non-integer fails with 203. -/
theorem flute_count_parsing :
    parseFluteCount "8/5" = .ok (8, 5) ∧
    parseFluteCount "8" = .ok (8, 1) ∧
    parseFluteCount "" = .error 307 ∧
    parseFluteCount "a/b" = .error 202 ∧
    (∀ s : String, s.data.contains '/' = true →
      (∃ p ∈ pySplitOn '/' s.data, pyInt? (String.mk p) = none) →
      parseFluteCount s = .error 202) ∧
    (∀ s : String, s.data.contains '/' = false → s ≠ "" → pyInt? s = none →
      parseFluteCount s = .error 203) := by
  refine ⟨by rfl, by rfl, by rfl, by rfl, ?_, ?_⟩
  · intro s hs ⟨p, hp, hnone⟩
    have hmem : pyInt? (String.mk p)
        ∈ (pySplitOn '/' s.data).map (fun p => pyInt? (String.mk p)) :=
      List.mem_map_of_mem _ hp
    rw [hnone] at hmem
    simp only [parseFluteCount, hs, if_true]
    exact flutePartsUnpack_of_none hmem
  · intro s hs hne hnone
    simp only [parseFluteCount, hs, Bool.false_eq_true, if_false, hnone]
    rw [if_pos hne]

/-- Witness for C2's universally quantified clauses at concrete inputs. -/
theorem flute_count_parsing_witness :
    parseFluteCount "8/x" = .error 202 ∧ parseFluteCount "x" = .error 203 := by
  constructor
  · exact flute_count_parsing.2.2.2.2.1 "8/x" (by decide)
      ⟨['x'], by decide, by decide⟩
  · exact flute_count_parsing.2.2.2.2.2 "x" (by decide) (by decide) (by decide)

/-- The taxonomy lists `get_family` reads from the reference JSON
(`json_content["tool_types"]`): group membership lists and the ordered
bur cut-type token list. -/
structure Taxonomy where
  EM_LIST : List String
  BUR_LIST : List String
  DRILL_LIST : List String
  FBGR_LIST : List String
  WR_LIST : List String
  O_FLUTE_LIST : List String
  WR_COMP_LIST : List String
  BUR_CUT_LIST : List String
  deriving Repr, DecidableEq

/-- The classification result of `get_family`. -/
structure FamInfo where
  family : String
  ref_family : String
  end_type : String
  bur_cut : String
  spiral : Bool
  deriving Repr, DecidableEq

/-- The `for cut in BUR_CUT_LIST` loop of `get_family` (lines 856-868):
each iteration sets `spiral` when "SPIRAL" is among the description
tokens, and the first cut token contained in the tokens breaks out with
family BUR; falling off the end (`for`/`else`) is status 302. -/
def burCutScan (bur_cut_list : List String) (split_description : List String)
    (spiral : Bool) : Except ℕ FamInfo :=
  match bur_cut_list with
  | [] => .error 302
  | cut :: rest =>
    let spiral := if split_description.contains "SPIRAL" then true else spiral
    if split_description.contains cut then
      .ok { family := "BUR", ref_family := "BUR", end_type := "",
            bur_cut := cut, spiral := spiral }
    else burCutScan rest split_description spiral

/-- `get_family` (lines 801-883): first-match-wins classification of the
base description against the taxonomy group lists, then the bur
substring rule, then status 301. -/
def getFamily (tax : Taxonomy) (base_description : String)
    (split_description : List String) : Except ℕ FamInfo :=
  if tax.EM_LIST.contains base_description then
    .ok { family := "EM", ref_family := "SQ EM", end_type := "",
          bur_cut := "", spiral := false }
  else if tax.WR_LIST.contains base_description then
    .ok { family := "WR", ref_family := "SQ EM", end_type := "",
          bur_cut := "", spiral := false }
  else if tax.DRILL_LIST.contains base_description then
    .ok { family := "DRILL", ref_family := "SQ EM", end_type := "",
          bur_cut := "", spiral := false }
  else if tax.FBGR_LIST.contains base_description then
    .ok { family := "FBGR", ref_family := "BUR",
          end_type := split_description.headD "",
          bur_cut := "", spiral := false }
  else if tax.O_FLUTE_LIST.contains base_description then
    .ok { family := "O-FLUTE", ref_family := "SQ EM", end_type := "",
          bur_cut := "", spiral := false }
  else if tax.WR_COMP_LIST.contains base_description then
    .ok { family := "WR COMP", ref_family := "SQ EM", end_type := "",
          bur_cut := "", spiral := false }
  else if tax.BUR_LIST.any (fun x => pyInStr x base_description)
      && !(pyInStr "DRILL" base_description) then
    burCutScan tax.BUR_CUT_LIST split_description false
  else .error 301

theorem boolIfTrueElse (b sp : Bool) : (if b then true else sp) = (b || sp) := by
  cases b <;> simp

theorem boolOrSelfOr (b s : Bool) : (b || (b || s)) = (b || s) := by
  cases b <;> simp

theorem burCutScan_found (split_description : List String) :
    ∀ (l : List String) (sp : Bool) (cut : String),
      l.find? (fun c => split_description.contains c) = some cut →
      burCutScan l split_description sp
        = .ok { family := "BUR", ref_family := "BUR", end_type := "",
                bur_cut := cut,
                spiral := split_description.contains "SPIRAL" || sp } := by
  intro l
  induction l with
  | nil => intro sp cut h; simp [List.find?] at h
  | cons c rest ih =>
    intro sp cut h
    rw [List.find?] at h
    by_cases hc : split_description.contains c = true
    · rw [hc] at h
      have hcc : c = cut := by injection h
      subst hcc
      simp only [burCutScan, boolIfTrueElse]
      rw [if_pos hc]
    · rw [Bool.not_eq_true] at hc
      rw [hc] at h
      simp only [burCutScan, boolIfTrueElse]
      rw [if_neg (by rw [hc]; exact Bool.false_ne_true),
        ih _ cut h, boolOrSelfOr]

theorem burCutScan_not_found (split_description : List String) :
    ∀ (l : List String) (sp : Bool),
      l.find? (fun c => split_description.contains c) = none →
      burCutScan l split_description sp = .error 302 := by
  intro l
  induction l with
  | nil => intro sp _; rfl
  | cons c rest ih =>
    intro sp h
    rw [List.find?] at h
    by_cases hc : split_description.contains c = true
    · rw [hc] at h; exact absurd h (by simp)
    · rw [Bool.not_eq_true] at hc
      rw [hc] at h
      simp only [burCutScan, boolIfTrueElse]
      rw [if_neg (by rw [hc]; exact Bool.false_ne_true)]
      exact ih _ h

theorem neTrue {b : Bool} (h : b = false) : ¬(b = true) := by
  rw [h]; exact Bool.false_ne_true

/-- C3: `get_family` applies its rules in a fixed first-match-wins order:
endmill set → EM; wood-router set → WR; drill set → DRILL; file/burr
grinder set → FBGR with end type from the first description token;
O-flute and compression-router sets → WR variants; otherwise a bur-family
substring (with no "DRILL" substring) selects BUR with the first cut-type
token found, none found failing with 302; no rule at all failing with
301.  EM, WR, DRILL, O-FLUTE and WR COMP all take reference family
"SQ EM" (the base endmill rate table). -/
theorem family_classification_order (tax : Taxonomy) (base : String)
    (sd : List String) :
    (tax.EM_LIST.contains base = true →
      getFamily tax base sd
        = .ok ⟨"EM", "SQ EM", "", "", false⟩) ∧
    (tax.EM_LIST.contains base = false →
      tax.WR_LIST.contains base = true →
      getFamily tax base sd
        = .ok ⟨"WR", "SQ EM", "", "", false⟩) ∧
    (tax.EM_LIST.contains base = false →
      tax.WR_LIST.contains base = false →
      tax.DRILL_LIST.contains base = true →
      getFamily tax base sd
        = .ok ⟨"DRILL", "SQ EM", "", "", false⟩) ∧
    (tax.EM_LIST.contains base = false →
      tax.WR_LIST.contains base = false →
      tax.DRILL_LIST.contains base = false →
      tax.FBGR_LIST.contains base = true →
      getFamily tax base sd
        = .ok ⟨"FBGR", "BUR", sd.headD "", "", false⟩) ∧
    (tax.EM_LIST.contains base = false →
      tax.WR_LIST.contains base = false →
      tax.DRILL_LIST.contains base = false →
      tax.FBGR_LIST.contains base = false →
      tax.O_FLUTE_LIST.contains base = true →
      getFamily tax base sd
        = .ok ⟨"O-FLUTE", "SQ EM", "", "", false⟩) ∧
    (tax.EM_LIST.contains base = false →
      tax.WR_LIST.contains base = false →
      tax.DRILL_LIST.contains base = false →
      tax.FBGR_LIST.contains base = false →
      tax.O_FLUTE_LIST.contains base = false →
      tax.WR_COMP_LIST.contains base = true →
      getFamily tax base sd
        = .ok ⟨"WR COMP", "SQ EM", "", "", false⟩) ∧
    (tax.EM_LIST.contains base = false →
      tax.WR_LIST.contains base = false →
      tax.DRILL_LIST.contains base = false →
      tax.FBGR_LIST.contains base = false →
      tax.O_FLUTE_LIST.contains base = false →
      tax.WR_COMP_LIST.contains base = false →
      (tax.BUR_LIST.any (fun x => pyInStr x base)
        && !(pyInStr "DRILL" base)) = true →
      ∀ cut, tax.BUR_CUT_LIST.find? (fun c => sd.contains c) = some cut →
        getFamily tax base sd
          = .ok ⟨"BUR", "BUR", "", cut, sd.contains "SPIRAL"⟩) ∧
    (tax.EM_LIST.contains base = false →
      tax.WR_LIST.contains base = false →
      tax.DRILL_LIST.contains base = false →
      tax.FBGR_LIST.contains base = false →
      tax.O_FLUTE_LIST.contains base = false →
      tax.WR_COMP_LIST.contains base = false →
      (tax.BUR_LIST.any (fun x => pyInStr x base)
        && !(pyInStr "DRILL" base)) = true →
      tax.BUR_CUT_LIST.find? (fun c => sd.contains c) = none →
      getFamily tax base sd = .error 302) ∧
    (tax.EM_LIST.contains base = false →
      tax.WR_LIST.contains base = false →
      tax.DRILL_LIST.contains base = false →
      tax.FBGR_LIST.contains base = false →
      tax.O_FLUTE_LIST.contains base = false →
      tax.WR_COMP_LIST.contains base = false →
      (tax.BUR_LIST.any (fun x => pyInStr x base)
        && !(pyInStr "DRILL" base)) = false →
      getFamily tax base sd = .error 301) := by
  refine ⟨?_, ?_, ?_, ?_, ?_, ?_, ?_, ?_, ?_⟩
  · intro h1
    simp only [getFamily]
    rw [if_pos h1]
  · intro h1 h2
    simp only [getFamily]
    rw [if_neg (neTrue h1), if_pos h2]
  · intro h1 h2 h3
    simp only [getFamily]
    rw [if_neg (neTrue h1), if_neg (neTrue h2), if_pos h3]
  · intro h1 h2 h3 h4
    simp only [getFamily]
    rw [if_neg (neTrue h1), if_neg (neTrue h2), if_neg (neTrue h3),
      if_pos h4]
  · intro h1 h2 h3 h4 h5
    simp only [getFamily]
    rw [if_neg (neTrue h1), if_neg (neTrue h2), if_neg (neTrue h3),
      if_neg (neTrue h4), if_pos h5]
  · intro h1 h2 h3 h4 h5 h6
    simp only [getFamily]
    rw [if_neg (neTrue h1), if_neg (neTrue h2), if_neg (neTrue h3),
      if_neg (neTrue h4), if_neg (neTrue h5), if_pos h6]
  · intro h1 h2 h3 h4 h5 h6 h7 cut hcut
    simp only [getFamily]
    rw [if_neg (neTrue h1), if_neg (neTrue h2), if_neg (neTrue h3),
      if_neg (neTrue h4), if_neg (neTrue h5), if_neg (neTrue h6),
      if_pos h7, burCutScan_found sd _ _ _ hcut, Bool.or_false]
  · intro h1 h2 h3 h4 h5 h6 h7 hnone
    simp only [getFamily]
    rw [if_neg (neTrue h1), if_neg (neTrue h2), if_neg (neTrue h3),
      if_neg (neTrue h4), if_neg (neTrue h5), if_neg (neTrue h6),
      if_pos h7]
    exact burCutScan_not_found sd _ _ hnone
  · intro h1 h2 h3 h4 h5 h6 h7
    simp only [getFamily]
    rw [if_neg (neTrue h1), if_neg (neTrue h2), if_neg (neTrue h3),
      if_neg (neTrue h4), if_neg (neTrue h5), if_neg (neTrue h6),
      if_neg (neTrue h7)]

/-- Witness for C3 at a concrete taxonomy and description: an oval
doublecut bur classified through the bur-substring rule. -/
theorem family_classification_order_witness :
    getFamily
      ⟨["SQ EM"], ["OVAL"], ["JOBBER DRILL"], ["FBGR FILE"], ["WOOD ROUTER"],
        ["O-FLUTE V"], ["COMP V"], ["SINGLECUT", "DOUBLECUT", "DIAMOND CUT"]⟩
      "OVAL DC" ["OVAL", "DOUBLECUT"]
      = .ok ⟨"BUR", "BUR", "", "DOUBLECUT", false⟩ := by
  have h := (family_classification_order
    ⟨["SQ EM"], ["OVAL"], ["JOBBER DRILL"], ["FBGR FILE"], ["WOOD ROUTER"],
      ["O-FLUTE V"], ["COMP V"], ["SINGLECUT", "DOUBLECUT", "DIAMOND CUT"]⟩
    "OVAL DC" ["OVAL", "DOUBLECUT"]).2.2.2.2.2.2.1
    (by decide) (by decide) (by decide) (by decide) (by decide) (by decide)
    (by decide) "DOUBLECUT" (by decide)
  rw [h]
  rfl

/-- `convert_from_mm` (lines 756-759): divide by 25.4 and round to 4
decimals; zero is left as zero. -/
def convert_from_mm (dimension : ℚ) : ℚ :=
  if dimension = 0 then 0 else pyRound (dimension / (254/10)) 4

/-- The record produced by the tail of `parse_description` (lines
760-780): the parsed `main_angle` and `neck_angle` are assigned (Python
truthiness: only when non-zero) after the non-zero-attribute collection,
so each conversion flag tests the field value before the assignment,
while the conversion itself acts on the value after it. -/
def finalizeConvert (t : ToolInfo) (ma na : ℚ) (mm : Bool) : ToolInfo :=
  { t with
    cut_diameter :=
      if mm && decide (t.cut_diameter ≠ 0)
      then convert_from_mm t.cut_diameter else t.cut_diameter
    length_of_cut :=
      if mm && decide (t.length_of_cut ≠ 0)
      then convert_from_mm t.length_of_cut else t.length_of_cut
    shank_diameter :=
      if mm && decide (t.shank_diameter ≠ 0)
      then convert_from_mm t.shank_diameter else t.shank_diameter
    overall_length :=
      if mm && decide (t.overall_length ≠ 0)
      then convert_from_mm t.overall_length else t.overall_length
    flute_length :=
      if mm && decide (t.flute_length ≠ 0)
      then convert_from_mm t.flute_length else t.flute_length
    tip_diameter :=
      if mm && decide (t.tip_diameter ≠ 0)
      then convert_from_mm t.tip_diameter else t.tip_diameter
    tip_length :=
      if mm && decide (t.tip_length ≠ 0)
      then convert_from_mm t.tip_length else t.tip_length
    pilot_length :=
      if mm && decide (t.pilot_length ≠ 0)
      then convert_from_mm t.pilot_length else t.pilot_length
    corner_radius :=
      if mm && decide (t.corner_radius ≠ 0)
      then convert_from_mm t.corner_radius else t.corner_radius
    neck_diameter :=
      if mm && decide (t.neck_diameter ≠ 0)
      then convert_from_mm t.neck_diameter else t.neck_diameter
    neck_length :=
      if mm && decide (t.neck_length ≠ 0)
      then convert_from_mm t.neck_length else t.neck_length
    tapered_neck_diameter :=
      if mm && decide (t.tapered_neck_diameter ≠ 0)
      then convert_from_mm t.tapered_neck_diameter
      else t.tapered_neck_diameter
    tapered_neck_angle :=
      if mm && decide (t.tapered_neck_angle ≠ 0)
      then convert_from_mm (if na ≠ 0 then na else t.tapered_neck_angle)
      else (if na ≠ 0 then na else t.tapered_neck_angle)
    main_angle :=
      if mm && decide (t.main_angle ≠ 0)
      then convert_from_mm (if ma ≠ 0 then ma else t.main_angle)
      else (if ma ≠ 0 then ma else t.main_angle)
    material_diameter :=
      if mm && decide (t.material_diameter ≠ 0)
      then convert_from_mm t.material_diameter else t.material_diameter
    material_oal :=
      if mm && decide (t.material_oal ≠ 0)
      then convert_from_mm t.material_oal else t.material_oal
    fluting_cycle_time :=
      if mm && decide (t.fluting_cycle_time ≠ 0)
      then convert_from_mm t.fluting_cycle_time else t.fluting_cycle_time
    prep_cycle_time :=
      if mm && decide (t.prep_cycle_time ≠ 0)
      then convert_from_mm t.prep_cycle_time else t.prep_cycle_time }

/-- Tail of `parse_description` (lines 760-780): fail with 206 when no
numeric attribute is non-zero at collection time; otherwise assign the
parsed angles and bulk-convert the collected attributes when millimeter
units apply. -/
def finalizeParse (t : ToolInfo) (main_angle neck_angle : ℚ)
    (using_mm : Bool) : Except ℕ ToolInfo :=
  if (decide (t.cut_diameter ≠ 0) || decide (t.length_of_cut ≠ 0)
      || decide (t.shank_diameter ≠ 0) || decide (t.overall_length ≠ 0)
      || decide (t.flute_length ≠ 0) || decide (t.tip_diameter ≠ 0)
      || decide (t.tip_length ≠ 0) || decide (t.pilot_length ≠ 0)
      || decide (t.corner_radius ≠ 0) || decide (t.neck_diameter ≠ 0)
      || decide (t.neck_length ≠ 0) || decide (t.tapered_neck_diameter ≠ 0)
      || decide (t.tapered_neck_angle ≠ 0) || decide (t.main_angle ≠ 0)
      || decide (t.material_diameter ≠ 0) || decide (t.material_oal ≠ 0)
      || decide (t.fluting_cycle_time ≠ 0)
      || decide (t.prep_cycle_time ≠ 0)) = false then
    .error 206
  else
    .ok (finalizeConvert t main_angle neck_angle using_mm)

/-- The concrete millimeter-unit record for the C4 counterexample:
a 6mm x 10mm x 6mm x 50mm tool. -/
def c4tool : ToolInfo :=
  { cut_diameter := 6, length_of_cut := 10, shank_diameter := 6,
    overall_length := 50 }

/-- C4 counterexample: a millimeter-unit tool whose description carries a
90° included angle.  The parsed main angle is assigned after the
conversion list was collected (when `main_angle` was still zero), so the
final record keeps 90 unconverted, while converting it would give
3.5433. -/
theorem parsed_main_angle_not_converted :
    (finalizeParse c4tool 90 0 true).map ToolInfo.main_angle = .ok 90 ∧
    convert_from_mm 90 = 35433/10000 ∧ (90 : ℚ) ≠ 35433/10000 := by
  refine ⟨?_, ?_, by norm_num⟩
  · simp [finalizeParse, finalizeConvert, c4tool, Except.map]
  · norm_num [convert_from_mm, pyRound, rhe]

theorem convChar (x v : ℚ) :
    (if (true && decide (x ≠ 0) : Bool) then convert_from_mm v else v)
      = if x ≠ 0 then convert_from_mm v else v := by
  by_cases hx : x = 0 <;> simp [hx]

/-- C4 amended: when millimeter units apply, every numeric attribute that
was non-zero at collection time — the collection happens before the
parsed angle values are assigned — is converted exactly once (divide by
25.4, round to 4 decimals); the two angle fields are converted only if
they were already non-zero before the parse-derived assignment, so an
angle assigned by the current parse onto a previously-zero field is left
unconverted. -/
theorem mm_conversion_characterization (t : ToolInfo) (ma na : ℚ)
    (t' : ToolInfo) (h : finalizeParse t ma na true = .ok t') :
    (t'.cut_diameter
      = if t.cut_diameter ≠ 0 then convert_from_mm t.cut_diameter
        else t.cut_diameter) ∧
    (t'.length_of_cut
      = if t.length_of_cut ≠ 0 then convert_from_mm t.length_of_cut
        else t.length_of_cut) ∧
    (t'.shank_diameter
      = if t.shank_diameter ≠ 0 then convert_from_mm t.shank_diameter
        else t.shank_diameter) ∧
    (t'.overall_length
      = if t.overall_length ≠ 0 then convert_from_mm t.overall_length
        else t.overall_length) ∧
    (t'.flute_length
      = if t.flute_length ≠ 0 then convert_from_mm t.flute_length
        else t.flute_length) ∧
    (t'.tip_diameter
      = if t.tip_diameter ≠ 0 then convert_from_mm t.tip_diameter
        else t.tip_diameter) ∧
    (t'.tip_length
      = if t.tip_length ≠ 0 then convert_from_mm t.tip_length
        else t.tip_length) ∧
    (t'.pilot_length
      = if t.pilot_length ≠ 0 then convert_from_mm t.pilot_length
        else t.pilot_length) ∧
    (t'.corner_radius
      = if t.corner_radius ≠ 0 then convert_from_mm t.corner_radius
        else t.corner_radius) ∧
    (t'.neck_diameter
      = if t.neck_diameter ≠ 0 then convert_from_mm t.neck_diameter
        else t.neck_diameter) ∧
    (t'.neck_length
      = if t.neck_length ≠ 0 then convert_from_mm t.neck_length
        else t.neck_length) ∧
    (t'.tapered_neck_diameter
      = if t.tapered_neck_diameter ≠ 0
        then convert_from_mm t.tapered_neck_diameter
        else t.tapered_neck_diameter) ∧
    (t'.material_diameter
      = if t.material_diameter ≠ 0 then convert_from_mm t.material_diameter
        else t.material_diameter) ∧
    (t'.material_oal
      = if t.material_oal ≠ 0 then convert_from_mm t.material_oal
        else t.material_oal) ∧
    (t'.fluting_cycle_time
      = if t.fluting_cycle_time ≠ 0 then convert_from_mm t.fluting_cycle_time
        else t.fluting_cycle_time) ∧
    (t'.prep_cycle_time
      = if t.prep_cycle_time ≠ 0 then convert_from_mm t.prep_cycle_time
        else t.prep_cycle_time) ∧
    (t'.tapered_neck_angle
      = if t.tapered_neck_angle ≠ 0
        then convert_from_mm (if na ≠ 0 then na else t.tapered_neck_angle)
        else (if na ≠ 0 then na else t.tapered_neck_angle)) ∧
    (t'.main_angle
      = if t.main_angle ≠ 0
        then convert_from_mm (if ma ≠ 0 then ma else t.main_angle)
        else (if ma ≠ 0 then ma else t.main_angle)) := by
  have ht' : t' = finalizeConvert t ma na true := by
    rw [finalizeParse] at h
    split at h
    · exact absurd h (by simp)
    · injection h with h
      exact h.symm
  subst ht'
  clear h
  refine ⟨?_, ?_, ?_, ?_, ?_, ?_, ?_, ?_, ?_, ?_, ?_, ?_, ?_, ?_, ?_,
    ?_, ?_, ?_⟩ <;>
    exact convChar _ _

/-- Witness for C4's amended characterization at the concrete
millimeter-unit record of the counterexample. -/
theorem mm_conversion_characterization_witness :
    (finalizeConvert c4tool 90 0 true).main_angle
      = if c4tool.main_angle ≠ 0 then convert_from_mm 90 else 90 := by
  have h : finalizeParse c4tool 90 0 true
      = .ok (finalizeConvert c4tool 90 0 true) := by
    rw [finalizeParse]
    rw [if_neg]
    simp [c4tool]
  have hc := (mm_conversion_characterization c4tool 90 0 _
    h).2.2.2.2.2.2.2.2.2.2.2.2.2.2.2.2.2
  simpa using hc

/-- The per-operation robot surcharge of `calc_prep_time`
(lines 1397-1405): a below-1.11-minute non-zero time gets 20 seconds
(5 seconds for backtaper), rounded to 4 decimals. -/
def robotTimeFor (name : String) (t : ℚ) : ℚ :=
  if t < 1.11 ∧ t ≠ 0 then
    if pyInStr "Backtaper Prep" name then pyRound (5/60) 4
    else pyRound (20/60) 4
  else 0

/-- The `prep_type_dict` construction (lines 1369-1392): keep the gated
operations and store each time increased by the fixed 10 percent,
rounded to 4 decimals. -/
def buildPrepList (entries : List (Bool × String × ℚ)) :
    List (String × ℚ) :=
  (entries.filter (fun e => e.1)).map
    (fun e => (e.2.1, pyRound (e.2.2 * 1.10) 4))

/-- The summation loop of `calc_prep_time` (lines 1394-1408): accumulates
`round(time + robot_time, 3)` per operation and carries the loop variable
`robot_time`, which after the loop still holds the last operation's
surcharge. -/
def prepFold (ops : List (String × ℚ)) : ℚ × ℚ :=
  ops.foldl
    (fun acc op =>
      (acc.1 + pyRound (op.2 + robotTimeFor op.1 op.2) 3,
        robotTimeFor op.1 op.2))
    (0, 0)

/-- `calc_prep_time` lines 1410-1413: double for double-ended tools, then
add the (stale) last `robot_time` once more and round to 3 decimals. -/
def totalPrepTime (ops : List (String × ℚ)) (double_end : Bool) : ℚ :=
  pyRound ((if double_end then (prepFold ops).1 * 2 else (prepFold ops).1)
    + (prepFold ops).2) 3

/-- Robot surcharge of the last gated operation (0 when there is none). -/
def lastRobot (ops : List (String × ℚ)) : ℚ :=
  match ops.getLast? with
  | some op => robotTimeFor op.1 op.2
  | none => 0

/-- The aggregate as claim C5 states it (spec wording, for comparison
with `totalPrepTime`): the sum over the gated operations of the
10-percent-increased time plus surcharge, doubled for double-ended
tools, with nothing else added. -/
def claimedPrepAggregate (ops : List (String × ℚ)) (de : Bool) : ℚ :=
  if de then
    2 * (ops.map (fun op => pyRound (op.2 + robotTimeFor op.1 op.2) 3)).sum
  else (ops.map (fun op => pyRound (op.2 + robotTimeFor op.1 op.2) 3)).sum

theorem lastRobot_cons (op : String × ℚ) (t : List (String × ℚ)) :
    lastRobot (op :: t)
      = if t = [] then robotTimeFor op.1 op.2 else lastRobot t := by
  cases t with
  | nil => rfl
  | cons h t' => simp [lastRobot, List.getLast?_cons_cons]

theorem prepFold_go :
    ∀ (ops : List (String × ℚ)) (a r : ℚ),
      ops.foldl
        (fun acc op =>
          (acc.1 + pyRound (op.2 + robotTimeFor op.1 op.2) 3,
            robotTimeFor op.1 op.2)) (a, r)
      = (a + (ops.map
            (fun op => pyRound (op.2 + robotTimeFor op.1 op.2) 3)).sum,
          if ops = [] then r else lastRobot ops) := by
  intro ops
  induction ops with
  | nil => intro a r; simp
  | cons op t ih =>
    intro a r
    rw [List.foldl_cons, ih, lastRobot_cons]
    simp [add_assoc]

theorem prepFold_eq (ops : List (String × ℚ)) :
    prepFold ops
      = ((ops.map (fun op => pyRound (op.2 + robotTimeFor op.1 op.2) 3)).sum,
          lastRobot ops) := by
  rw [prepFold, prepFold_go]
  cases ops with
  | nil => simp [lastRobot]
  | cons op t => simp

/-- C5 amended: the reported aggregate prep time is the rounded sum of
the per-operation `round(time + surcharge, 3)` values (times already
carry the 10 percent increase), doubled for double-ended tools, PLUS one
extra copy of the last gated operation's robot surcharge — the loop
variable `robot_time` is re-added after the loop — all rounded to 3
decimals. -/
theorem prep_aggregate_amended (entries : List (Bool × String × ℚ))
    (de : Bool) :
    totalPrepTime (buildPrepList entries) de
      = pyRound ((if de then ((buildPrepList entries).map
            (fun op => pyRound (op.2 + robotTimeFor op.1 op.2) 3)).sum * 2
          else ((buildPrepList entries).map
            (fun op => pyRound (op.2 + robotTimeFor op.1 op.2) 3)).sum)
        + lastRobot (buildPrepList entries)) 3 := by
  rw [totalPrepTime, prepFold_eq]

/-- C5 counterexample: one gated neck-prep operation of raw time 0.5
minutes (0.55 after the 10 percent increase).  The code reports 1.216
minutes — the 0.3333-minute robot surcharge is added a second time after
the loop — while the claimed aggregate (sum of increased times plus one
surcharge each, nothing else) is 0.883 minutes. -/
theorem prep_trailing_robot_time_recount :
    totalPrepTime (buildPrepList
      [(true, "Neck Prep (Before Fluting)", 1/2), (false, "Point Prep", 3)])
      false = 1216/1000 ∧
    claimedPrepAggregate (buildPrepList
      [(true, "Neck Prep (Before Fluting)", 1/2), (false, "Point Prep", 3)])
      false = 883/1000 ∧
    (1216/1000 : ℚ) ≠ 883/1000 := by
  have hbt : pyInStr "Backtaper Prep" "Neck Prep (Before Fluting)" = false := by
    decide
  have hlist : buildPrepList
      [(true, "Neck Prep (Before Fluting)", 1/2), (false, "Point Prep", 3)]
      = [("Neck Prep (Before Fluting)", 11/20)] := by
    norm_num [buildPrepList, pyRound, rhe]
  have hrobot : robotTimeFor "Neck Prep (Before Fluting)" (11/20)
      = 3333/10000 := by
    norm_num [robotTimeFor, hbt, pyRound, rhe]
  have h1 : pyRound (11/20
      + robotTimeFor "Neck Prep (Before Fluting)" (11/20)) 3 = 883/1000 := by
    rw [hrobot]
    norm_num [pyRound, rhe]
  have hlast : lastRobot [("Neck Prep (Before Fluting)", 11/20)]
      = 3333/10000 := by
    simp [lastRobot, hrobot]
  refine ⟨?_, ?_, by norm_num⟩
  · rw [hlist, totalPrepTime, prepFold_eq]
    simp only [List.map_cons, List.map_nil, List.sum_cons, List.sum_nil,
      h1, hlast, Bool.false_eq_true, if_false]
    norm_num [pyRound, rhe]
  · rw [hlist, claimedPrepAggregate]
    simp only [List.map_cons, List.map_nil, List.sum_cons, List.sum_nil,
      h1, Bool.false_eq_true, if_false]
    norm_num

/-- The base component times of the endmill/router/drill branch. -/
structure EmComponents where
  calc_fl_time : ℚ
  calc_od_time : ℚ
  calc_end_time : ℚ
  calc_gash_time : ℚ
  deriving Repr, DecidableEq

/-- Lines 1813-1837 of `calc_fluting_time`: sub-0.06 diameters scale the
feedrates by `cut_dia / max_diameter`; a flute count of exactly 2 uses an
effective multiplier of 4 for fluting and OD time; end and gash times
always use the flute count. -/
def emBaseComponents (cut_dia loc fluting_fr od_fr end_ct end_gash_ct
    max_diameter : ℚ) (fl_cnt1 : ℤ) : EmComponents :=
  let diff : ℚ := if cut_dia < 0.06 then cut_dia / max_diameter else 1
  let fluting_feedrate := fluting_fr * diff
  let od_feedrate := od_fr * diff
  let dynamic_variable : ℚ := 2.5
  if fl_cnt1 = 2 then
    { calc_fl_time := (loc / fluting_feedrate) * dynamic_variable * 4
      calc_od_time := (loc / od_feedrate) * dynamic_variable * 4
      calc_end_time := ((cut_dia * 0.5) / end_ct) * dynamic_variable * fl_cnt1
      calc_gash_time :=
        ((cut_dia * 0.5) / end_gash_ct) * dynamic_variable * fl_cnt1 }
  else
    { calc_fl_time := (loc / fluting_feedrate) * dynamic_variable * fl_cnt1
      calc_od_time := (loc / od_feedrate) * dynamic_variable * fl_cnt1
      calc_end_time := ((cut_dia * 0.5) / end_ct) * dynamic_variable * fl_cnt1
      calc_gash_time :=
        ((cut_dia * 0.5) / end_gash_ct) * dynamic_variable * fl_cnt1 }

/-- C6: in the endmill/router/drill branch a flute count of exactly 2
computes fluting and OD time with an effective multiplier of 4 — the same
values a 4-flute tool would get — while any other flute count `n` uses
`(loc/feedrate) × 2.5 × n`. -/
theorem two_flute_effective_multiplier
    (cut_dia loc fluting_fr od_fr end_ct end_gash_ct max_diameter : ℚ)
    (n : ℤ) :
    ((emBaseComponents cut_dia loc fluting_fr od_fr end_ct end_gash_ct
        max_diameter 2).calc_fl_time
      = (emBaseComponents cut_dia loc fluting_fr od_fr end_ct end_gash_ct
        max_diameter 4).calc_fl_time
    ∧ (emBaseComponents cut_dia loc fluting_fr od_fr end_ct end_gash_ct
        max_diameter 2).calc_od_time
      = (emBaseComponents cut_dia loc fluting_fr od_fr end_ct end_gash_ct
        max_diameter 4).calc_od_time) ∧
    (n ≠ 2 →
      (emBaseComponents cut_dia loc fluting_fr od_fr end_ct end_gash_ct
          max_diameter n).calc_fl_time
        = (loc / (fluting_fr
            * (if cut_dia < 0.06 then cut_dia / max_diameter else 1)))
          * 2.5 * n
      ∧ (emBaseComponents cut_dia loc fluting_fr od_fr end_ct end_gash_ct
          max_diameter n).calc_od_time
        = (loc / (od_fr
            * (if cut_dia < 0.06 then cut_dia / max_diameter else 1)))
          * 2.5 * n) := by
  refine ⟨⟨?_, ?_⟩, fun hn => ⟨?_, ?_⟩⟩
  · simp [emBaseComponents]
  · simp [emBaseComponents]
  · simp [emBaseComponents, hn]
  · simp [emBaseComponents, hn]

/-- Witness for C6 at a 3-flute tool (direct flute-count path). -/
theorem two_flute_effective_multiplier_witness :
    (emBaseComponents (1/4) (1/2) 1 1 1 1 1 3).calc_fl_time
      = ((1/2 : ℚ) / (1 * (if (1/4 : ℚ) < 0.06 then (1/4)/1 else 1)))
        * 2.5 * (3 : ℤ) :=
  ((two_flute_effective_multiplier (1/4) (1/2) 1 1 1 1 1 3).2
    (by decide)).1

/-- Result of the OD-angle / zeroing stage of the endmill branch. -/
structure OdStageResult where
  calc_od_time : ℚ
  calc_end_time : ℚ
  calc_gash_time : ℚ
  end_split_time : ℚ
  sec_od_angle : Bool
  tert_od_angle : Bool
  split : Bool
  deriving Repr, DecidableEq

/-- Lines 1974-1994 of `calc_fluting_time`: a tertiary OD angle without a
secondary one is dropped; a zero OD time disables both angles; a
staggered-tooth tool disables angles, split and OD time; end/gash and
split components are zeroed by their flags; finally the OD time is
tripled when secondary and tertiary angles both apply, doubled when only
the secondary applies. -/
def odAngleStage (description : String) (calc_od_time : ℚ)
    (sec_od_angle tert_od_angle split end_time : Bool)
    (calc_end_time calc_gash_time end_split_time : ℚ) : OdStageResult :=
  let tert1 := if tert_od_angle && !sec_od_angle then false
    else tert_od_angle
  let sec1 := if calc_od_time = 0 then false else sec_od_angle
  let tert2 := if calc_od_time = 0 then false else tert1
  let stag := pyInStr "STAGGERED" (pyUpper description)
  let sec2 := if stag then false else sec1
  let tert3 := if stag then false else tert2
  let split1 := if stag then false else split
  let od1 := if stag then 0 else calc_od_time
  let ce := if !end_time then 0 else calc_end_time
  let cg := if !end_time then 0 else calc_gash_time
  let es := if !split1 then 0 else end_split_time
  let od2 := if sec2 && tert3 then od1 * 3
    else if sec2 && !tert3 then od1 * 2 else od1
  ⟨od2, ce, cg, es, sec2, tert3, split1⟩

/-- C7: for a non-staggered tool with a non-zero OD component, a
secondary OD angle doubles the OD time; a requested tertiary angle
together with a secondary angle triples it instead; a tertiary request
without a secondary angle leaves the OD time unmultiplied. -/
theorem od_angle_multipliers (description : String) (od : ℚ)
    (split end_time : Bool) (ce cg es : ℚ)
    (hstag : pyInStr "STAGGERED" (pyUpper description) = false)
    (hod : od ≠ 0) :
    ((odAngleStage description od true false split end_time
        ce cg es).calc_od_time = od * 2) ∧
    ((odAngleStage description od true true split end_time
        ce cg es).calc_od_time = od * 3) ∧
    (∀ tert : Bool,
      (odAngleStage description od false tert split end_time
        ce cg es).calc_od_time = od) := by
  refine ⟨?_, ?_, fun tert => ?_⟩
  · simp [odAngleStage, hstag, hod]
  · simp [odAngleStage, hstag, hod]
  · cases tert <;> simp [odAngleStage, hstag, hod]

/-- Witness for C7 at a concrete square endmill. -/
theorem od_angle_multipliers_witness :
    (odAngleStage "SQ EM" 1 true false true true 1 1 1).calc_od_time
      = 1 * 2 :=
  (od_angle_multipliers "SQ EM" 1 true true 1 1 1 (by decide)
    (by norm_num)).1

/-- Python division: `none` models a raised `ZeroDivisionError`. -/
def pyDiv (a b : ℚ) : Option ℚ := if b = 0 then none else some (a / b)

/-- The time step of `vol_calc` (lines 1249-1257): a falsy (absent or
zero) rate yields time 0; otherwise divide the removed volume by the
rate and round to 3 decimals. -/
def volCalcTime (reduction_vol rate : ℚ) : Option ℚ :=
  if rate = 0 then some 0
  else (pyDiv reduction_vol rate).map (fun q => pyRound q 3)

/-- The backtaper computation of `calc_prep_time` (lines 1010-1014):
`backtaper_rate = rate/25.4; bt_time = prep_length/backtaper_rate`, with
no zero guard on the configured rate. -/
def backtaperTime (bt_rate prep_length : ℚ) : Option ℚ :=
  (pyDiv bt_rate 25.4).bind (fun backtaper_rate =>
    pyDiv prep_length backtaper_rate)

/-- C8 counterexample: a configured backtaper rate of zero makes the
backtaper prep computation raise `ZeroDivisionError` (modeled as `none`),
so not every prep-time computation is division-safe. -/
theorem backtaper_divides_by_zero :
    backtaperTime 0 1 = none := by
  norm_num [backtaperTime, pyDiv]

/-- C8 amended: every volume-based prep time is `round(vol/rate, 3)` with
an absent or zero rate yielding 0 and no division fault; the backtaper
time divides the prep length by `rate/25.4` without a zero guard, so it
is division-safe exactly when the configured backtaper rate is
non-zero. -/
theorem prep_division_behavior (reduction_vol rate prep_length : ℚ) :
    volCalcTime reduction_vol rate
      = some (if rate = 0 then 0 else pyRound (reduction_vol / rate) 3) ∧
    backtaperTime rate prep_length
      = (if rate = 0 then none
         else some (prep_length / (rate / (254/10)))) := by
  constructor
  · by_cases h : rate = 0 <;> simp [volCalcTime, pyDiv, h]
  · by_cases h : rate = 0
    · simp [backtaperTime, pyDiv, h]
    · have h254 : (25.4 : ℚ) = 254/10 := by norm_num
      have hne : rate / (254/10 : ℚ) ≠ 0 := by
        exact div_ne_zero h (by norm_num)
      simp [backtaperTime, pyDiv, h, h254, hne]

/-- Fuel-indexed worker for `replaceList`; the fuel starts at the list
length and each step consumes at least one character, so it never runs
out. -/
def replaceGo (pat repl : List Char) : ℕ → List Char → List Char
  | 0, l => l
  | _, [] => []
  | fuel + 1, x :: xs =>
    if pat ≠ [] ∧ pat.isPrefixOf (x :: xs) then
      repl ++ replaceGo pat repl fuel ((x :: xs).drop pat.length)
    else
      x :: replaceGo pat repl fuel xs

/-- Python `str.replace(pat, repl)` over character lists: replace
non-overlapping occurrences left to right (the program only calls it
with non-empty patterns, for which this is exact). -/
def replaceList (pat repl l : List Char) : List Char :=
  replaceGo pat repl l.length l

/-- `description.split(" ")`: space-separated words, keeping empties. -/
def splitWords (s : String) : List String :=
  (pySplitOn ' ' s.data).map (fun l => (⟨l⟩ : String))

/-- Python `int()` applied to a number: truncation toward zero. -/
def pyTrunc (q : ℚ) : ℤ := if q < 0 then -⌊-q⌋ else ⌊q⌋

/-- A Python numeric literal as admitted inside the neck-dimension
expressions: an integer literal (no leading zero unless all zeros) or a
float literal `digits.digits` with either side optional. -/
def parseDecimal (l : List Char) : Option ℚ :=
  match pySplitOn '.' l with
  | [ip] =>
    if ip ≠ [] ∧ ip.all Char.isDigit ∧ (ip.head? = some '0' → ip.all (· = '0'))
    then some ((digitsVal ip : ℤ) : ℚ) else none
  | [ip, fp] =>
    if ip.all Char.isDigit ∧ fp.all Char.isDigit ∧ (ip ≠ [] ∨ fp ≠ [])
    then some (((digitsVal ip : ℤ) : ℚ)
      + ((digitsVal fp : ℤ) : ℚ) / 10 ^ fp.length)
    else none
  | _ => none

/-- One `+`-separated term of an eval'd dimension: a plain number or a
division `a/b` (zero denominator raises, modeled as `none`). -/
def termVal (t : List Char) : Option ℚ :=
  if t.contains '/' then
    match pySplitOn '/' t with
    | [a, b] =>
      match parseDecimal a, parseDecimal b with
      | some qa, some qb => pyDiv qa qb
      | _, _ => none
    | _ => none
  else parseDecimal t

/-- Sum of the `+`-separated terms (the split is never empty). -/
def sumTerms : List (List Char) → Option ℚ
  | [] => none
  | [t] => termVal t
  | t :: rest =>
    match termVal t, sumTerms rest with
    | some a, some b => some (a + b)
    | _, _ => none

/-- Python `eval(dim)` for the dimension strings the neck regex admits
(after the `-` → `+` replacement): a sum of number/division terms;
`none` models a raised exception. -/
def pyEvalDim (l : List Char) : Option ℚ := sumTerms (pySplitOn '+' l)

/-- The two dimension values of a neck match: split the cleaned match
text on `X` and eval each part with `-` replaced by `+`. -/
def neckDims (dims : List Char) : List (Option ℚ) :=
  (pySplitOn 'X' dims).map (fun d => pyEvalDim (replaceList ['-'] ['+'] d))

/-- Outcome of a parsing stage: a result, a returned status code, or an
uncaught Python exception. -/
inductive ParseOutcome (α : Type) where
  | ok : α → ParseOutcome α
  | fail : ℕ → ParseOutcome α
  | crash : ParseOutcome α
  deriving Repr, DecidableEq

/-- The neck-extraction step of `parse_description` (lines 569-589), with
the `re.search` result for the neck pattern supplied as `neck_match`
(the matched text of group 0).  A degree sign selects the tapered form
(angle doubled to an included angle after integer truncation); otherwise
the two values land in `neck_diameter`/`neck_length`; the matched text is
removed from the description before the word split.  Without a match,
`prep` with a literal "NECK" in the description fails with 209. -/
def applyNeckMatch (tool : ToolInfo) (description : String)
    (neck_match : Option String) (prep : Bool) :
    ParseOutcome (ToolInfo × ℚ × List String) :=
  match neck_match with
  | some g =>
    if g.data.contains '°' then
      match neckDims (replaceList "°".data []
          (replaceList " TAPEREDNECK".data [] g.data)) with
      | [some a, some l] =>
        .ok ({ tool with neck_length := l }, ((pyTrunc a : ℤ) : ℚ) * 2,
          splitWords ⟨replaceList g.data [] description.data⟩)
      | _ => .crash
    else
      match neckDims (replaceList " NECK".data [] g.data) with
      | [some d, some l] =>
        .ok ({ tool with neck_diameter := d, neck_length := l }, 0,
          splitWords ⟨replaceList g.data [] description.data⟩)
      | _ => .crash
  | none =>
    if prep && pyInStr "NECK" description then .fail 209
    else .ok (tool, 0, splitWords description)

/-- The prep gate of `get_tool_detail` (lines 1537-1542): `calc_prep_time`
runs only when the `PREP` feature flag is set; otherwise the tool record
passes through untouched. -/
def prepGateStep (prep : Bool) (tool : ToolInfo)
    (calcPrep : ToolInfo → Except ℕ ToolInfo) : Except ℕ ToolInfo :=
  if prep then calcPrep tool else .ok tool

/-- The only record mutation of `calc_fluting_time` (line 2033): the
computed fluting time is written; `prep_cycle_time` is untouched. -/
def flutingStep (tool : ToolInfo) (ft : ℚ) : ToolInfo :=
  { tool with fluting_cycle_time := ft }

/-- C9: when the description carries a plain neck dimension (the neck
regex matched text `g`, no degree sign, both values eval'ing) and `PREP`
is not among the args, the neck diameter and length are still extracted
into the record, the prep calculation never runs, and the
`prep_cycle_time` that feeds the response's PrepTime stays 0. -/
theorem neck_extracted_without_prep
    (tool : ToolInfo) (description g : String) (d l : ℚ)
    (calcPrep : ToolInfo → Except ℕ ToolInfo) (ft : ℚ)
    (hdeg : g.data.contains '°' = false)
    (hdims : neckDims (replaceList " NECK".data [] g.data)
      = [some d, some l])
    (hpt : tool.prep_cycle_time = 0) :
    applyNeckMatch tool description (some g) false
      = .ok ({ tool with neck_diameter := d, neck_length := l }, 0,
          splitWords ⟨replaceList g.data [] description.data⟩) ∧
    prepGateStep false { tool with neck_diameter := d, neck_length := l }
        calcPrep
      = .ok { tool with neck_diameter := d, neck_length := l } ∧
    (flutingStep { tool with neck_diameter := d, neck_length := l }
      ft).prep_cycle_time = 0 := by
  refine ⟨?_, rfl, ?_⟩
  · simp only [applyNeckMatch, hdeg, Bool.false_eq_true, if_false, hdims]
  · simp [flutingStep, hpt]

/-- Witness for C9 at the spec's scenario: a `.113X.6395 NECK` dimension
without the `PREP` token. -/
theorem neck_extracted_without_prep_witness :
    applyNeckMatch {} "OVAL DOUBLECUT WITH .113X.6395 NECK"
        (some ".113X.6395 NECK") false
      = .ok ({ neck_diameter := 113/1000, neck_length := 6395/10000 }, 0,
          splitWords ⟨replaceList ".113X.6395 NECK".data []
            "OVAL DOUBLECUT WITH .113X.6395 NECK".data⟩) ∧
    (flutingStep { neck_diameter := 113/1000, neck_length := 6395/10000 }
      1).prep_cycle_time = 0 := by
  have hrep : replaceList " NECK".data [] ".113X.6395 NECK".data
      = ".113X.6395".data := by decide
  have hsplit : pySplitOn 'X' ".113X.6395".data
      = [".113".data, ".6395".data] := by decide
  have hr1 : replaceList ['-'] ['+'] ".113".data = ".113".data := by decide
  have hr2 : replaceList ['-'] ['+'] ".6395".data = ".6395".data := by decide
  have hp1 : pySplitOn '+' ".113".data = [".113".data] := by decide
  have hp2 : pySplitOn '+' ".6395".data = [".6395".data] := by decide
  have hd1 : pySplitOn '.' ".113".data = [[], "113".data] := by decide
  have hd2 : pySplitOn '.' ".6395".data = [[], "6395".data] := by decide
  have hc1 : ".113".data.contains '/' = false := by decide
  have hc2 : ".6395".data.contains '/' = false := by decide
  have he1 : pyEvalDim ".113".data = some (113/1000) := by
    rw [pyEvalDim, hp1, sumTerms, termVal, hc1]
    simp only [Bool.false_eq_true, if_false, parseDecimal, hd1]
    rw [if_pos ⟨by decide, by decide, Or.inr (by decide)⟩,
      show digitsVal ([] : List Char) = 0 from rfl,
      show digitsVal "113".data = 113 from by decide,
      show ("113".data).length = 3 from by decide]
    norm_num
  have he2 : pyEvalDim ".6395".data = some (6395/10000) := by
    rw [pyEvalDim, hp2, sumTerms, termVal, hc2]
    simp only [Bool.false_eq_true, if_false, parseDecimal, hd2]
    rw [if_pos ⟨by decide, by decide, Or.inr (by decide)⟩,
      show digitsVal ([] : List Char) = 0 from rfl,
      show digitsVal "6395".data = 6395 from by decide,
      show ("6395".data).length = 4 from by decide]
    norm_num
  have hdims : neckDims (replaceList " NECK".data [] ".113X.6395 NECK".data)
      = [some (113/1000), some (6395/10000)] := by
    rw [hrep, neckDims, hsplit]
    simp only [List.map_cons, List.map_nil, hr1, hr2, he1, he2]
  have h := neck_extracted_without_prep {}
    "OVAL DOUBLECUT WITH .113X.6395 NECK" ".113X.6395 NECK"
    (113/1000) (6395/10000) (fun t => .ok t) 1 (by decide) hdims rfl
  exact ⟨h.1, h.2.2⟩

/-- Python `float(s)` digit part: integer or decimal form (the exponent,
infinity and nan forms do not occur in this program's inputs). -/
def pyFloatDigits (l : List Char) : Option ℚ :=
  match pySplitOn '.' l with
  | [ip] =>
    if ip ≠ [] ∧ ip.all Char.isDigit
    then some ((digitsVal ip : ℤ) : ℚ) else none
  | [ip, fp] =>
    if ip.all Char.isDigit ∧ fp.all Char.isDigit ∧ (ip ≠ [] ∨ fp ≠ [])
    then some (((digitsVal ip : ℤ) : ℚ)
      + ((digitsVal fp : ℤ) : ℚ) / 10 ^ fp.length)
    else none
  | _ => none

/-- Python `float(s)`: optional surrounding whitespace, optional sign,
then a decimal number; `none` models a raised `ValueError`. -/
def pyFloat? (s : String) : Option ℚ :=
  match ((s.data.dropWhile Char.isWhitespace).reverse.dropWhile
    Char.isWhitespace).reverse with
  | '+' :: r => pyFloatDigits r
  | '-' :: r => (pyFloatDigits r).map Neg.neg
  | r => pyFloatDigits r

/-- One step of the kwargs-to-field mapping of `get_tool_detail`
(lines 1452-1467): the uppercased key selects a ToolInfo field, the value
is coerced to that field's type (`str` fields take the string as is,
float fields parse it), a coercion failure is status 200, and an
unrecognized key is skipped. -/
def kwargFieldUpdate (tool : ToolInfo) (k v : String) : Except ℕ ToolInfo :=
  if pyUpper k = "PART_NUM" then .ok { tool with part_number := v }
  else if pyUpper k = "MATERIAL" then .ok { tool with material := v }
  else if pyUpper k = "MAT_DIMENSION" then
    .ok { tool with material_dimension := v }
  else if pyUpper k = "TIP_DIAMETER" then
    match pyFloat? v with
    | some f => .ok { tool with tip_diameter := f }
    | none => .error 200
  else if pyUpper k = "TAPERED_NECK_DIA" then
    match pyFloat? v with
    | some f => .ok { tool with tapered_neck_diameter := f }
    | none => .error 200
  else .ok tool

/-- The kwargs-to-field loop of `get_tool_detail`: every entry is
applied in order (no break), stopping only on a coercion failure. -/
def applyKwargsMap (tool : ToolInfo) :
    List (String × String) → Except ℕ ToolInfo
  | [] => .ok tool
  | (k, v) :: rest =>
    match kwargFieldUpdate tool k v with
    | .ok t' => applyKwargsMap t' rest
    | .error c => .error c

theorem applyKwargsMap_last_part_num (p : String) :
    ∀ (pre : List (String × String)) (tool t' : ToolInfo),
      applyKwargsMap tool (pre ++ [("PART_NUM", p)]) = .ok t' →
      t'.part_number = p := by
  intro pre
  induction pre with
  | nil =>
    intro tool t' h
    have hup : pyUpper "PART_NUM" = "PART_NUM" := by decide
    simp only [List.nil_append, applyKwargsMap, kwargFieldUpdate, hup,
      if_pos] at h
    injection h with h
    rw [← h]
  | cons e rest ih =>
    intro tool t' h
    obtain ⟨k0, v0⟩ := e
    simp only [List.cons_append, applyKwargsMap] at h
    cases hk : kwargFieldUpdate tool k0 v0 with
    | ok t1 =>
      rw [hk] at h
      exact ih t1 t' h
    | error c =>
      rw [hk] at h
      simp at h

/-- C10: the kwargs scan in `lambda_handler` stops after the first entry,
so the `PartNumber` echoed in a successful response is non-empty only
when the first kwargs key is `part_num` case-insensitively; a `PART_NUM`
entry appearing after any other key leaves the echoed `PartNumber` empty
even though the part number is still written to the tool record by the
separate kwargs-to-field mapping of `get_tool_detail`. -/
theorem part_number_echo_first_key_only :
    (∀ (kwargs : List (String × String)) (r : Except ℕ ToolInfo)
        (resp : SuccessResponse),
      lambdaHandlerTail kwargs r = .success resp →
      resp.partNumber = scanPartNum kwargs) ∧
    (∀ kwargs : List (String × String), scanPartNum kwargs ≠ "" →
      ∃ k v rest, kwargs = (k, v) :: rest ∧ pyLower k = "part_num") ∧
    (∀ (k0 v0 : String) (rest : List (String × String)),
      pyLower k0 ≠ "part_num" → scanPartNum ((k0, v0) :: rest) = "") ∧
    (∀ (tool t' : ToolInfo) (pre : List (String × String)) (p : String),
      applyKwargsMap tool (pre ++ [("PART_NUM", p)]) = .ok t' →
      t'.part_number = p) := by
  refine ⟨?_, ?_, ?_, ?_⟩
  · intro kwargs r resp h
    cases r with
    | error c => simp [lambdaHandlerTail] at h
    | ok tool =>
      simp only [lambdaHandlerTail] at h
      cases h
      rfl
  · intro kwargs h
    cases kwargs with
    | nil => exact absurd rfl h
    | cons e rest =>
      obtain ⟨k, v⟩ := e
      by_cases hk : pyLower k = "part_num"
      · exact ⟨k, v, rest, rfl, hk⟩
      · exact absurd (by simp [scanPartNum, hk]) h
  · intro k0 v0 rest h
    simp [scanPartNum, h]
  · intro tool t' pre p h
    exact applyKwargsMap_last_part_num p pre tool t' h

/-- Witness for C10: `PART_NUM` as the second kwargs entry echoes an
empty `PartNumber` while the tool record still receives the part
number. -/
theorem part_number_echo_first_key_only_witness :
    scanPartNum [("MATERIAL", "SOLID"), ("PART_NUM", "101-2666")] = "" ∧
    ({ material := "SOLID", part_number := "101-2666" }
      : ToolInfo).part_number = "101-2666" := by
  constructor
  · exact part_number_echo_first_key_only.2.2.1 "MATERIAL" "SOLID"
      [("PART_NUM", "101-2666")] (by decide)
  · exact part_number_echo_first_key_only.2.2.2 {}
      { material := "SOLID", part_number := "101-2666" }
      [("MATERIAL", "SOLID")] "101-2666" (by rfl)

end CycleCalc
